import Mathlib

/-!
Verification development for `homeassistant/components/lamarzocco/number.py`.

The file is a shallow embedding of the number-platform module of the
La Marzocco integration: the descriptor tables `ENTITIES` and
`KEY_ENTITIES`, the three derived setters `_set_prebrew_on`,
`_set_prebrew_off` and `_set_preinfusion`, the keyed part of
`async_setup_entry`, the constructor of `LaMarzoccoKeyNumberEntity`, and
the `async_set_native_value` methods of both entity classes.

Python floats are modelled as rationals, Python `int(x)` as truncation
toward zero, the device-status dictionary `current_status` as a function
from field names to values (numbers or booleans, as the dictionary is
heterogeneous), and each SDK method invocation as a first-order value of
type `SdkCall` recording the method and its arguments, keyword omission
included.  The vendor SDK `lmcloud` and the base class module
`entity.py` are external to the source file; the few facts taken from
them are marked in the doc comments where they are defined.
-/

namespace LaMarzocco

/-- Machine models of the vendor SDK enum `lmcloud.const.LaMarzoccoModel`
(the SDK is an external dependency; the source file only compares
`model_name` against `GS3_AV` and `GS3_MP`, so only the distinction
between those two and the remaining models matters here). -/
inductive Model where
  | GS3_AV
  | GS3_MP
  | LINEA_MINI
  | LINEA_MICRA
deriving DecidableEq, Repr

/-- Values stored in the heterogeneous `current_status` dictionary:
numeric settings and boolean mode flags. -/
inductive StatusVal where
  | num (q : ℚ)
  | bool (b : Bool)
deriving DecidableEq, Repr

/-- Read a status value as a number, with Python's numeric coercion of
booleans (`True` is `1`, `False` is `0`). -/
def StatusVal.toQ : StatusVal → ℚ
  | .num q => q
  | .bool b => if b then 1 else 0

/-- Read a status value as a boolean, with Python truthiness for
numbers (zero is falsy). -/
def StatusVal.toBool : StatusVal → Bool
  | .num q => q != 0
  | .bool b => b

/-- Device status snapshot: the `current_status` mapping from field
name to value. -/
def Status : Type := String → StatusVal

/-- The `lmcloud` client object, as used by this file: a model name and
the `current_status` snapshot. -/
structure Client where
  model_name : Model
  current_status : Status

/-- The update coordinator, as used by this file: it exposes the `.lm`
client. -/
structure Coordinator where
  lm : Client

/-- Python `int(x)` applied to a float: truncation toward zero
(the numerator of the reduced fraction divided by the denominator with
division that rounds toward zero). -/
def pyInt (q : ℚ) : ℤ :=
  q.num.tdiv (q.den : ℤ)

/-- One SDK method invocation, recording the method and its arguments.
`configure_prebrew` takes its `on_time` as an `Option` because
`_set_preinfusion` omits that keyword argument, leaving it to the SDK
default. -/
inductive SdkCall where
  | set_coffee_temp (temp : ℚ)
  | set_steam_temp (temp : ℤ)
  | set_dose_hot_water (value : ℤ)
  | configure_prebrew (on_time : Option ℤ) (off_time : ℤ) (key : ℕ)
  | set_dose (key : ℕ) (value : ℤ)
deriving DecidableEq, Repr

/-- Home Assistant constant `PRECISION_TENTHS`. -/
def PRECISION_TENTHS : ℚ := 1 / 10

/-- Home Assistant constant `PRECISION_WHOLE`. -/
def PRECISION_WHOLE : ℚ := 1

/-- Descriptor of a plain number entity
(`LaMarzoccoNumberEntityDescription`).  The defaults of `supported_fn`
is the one inherited from `LaMarzoccoEntityDescription` in `entity.py`
(outside this file), modelled from the spec: a descriptor without an
explicit predicate is supported on every model. -/
structure NumberEntityDescription where
  key : String
  translation_key : String
  device_class : Option String := none
  native_unit_of_measurement : Option String := none
  native_step : ℚ
  native_min_value : ℚ
  native_max_value : ℚ
  entity_category : Option String := none
  set_value_fn : Coordinator → ℚ → SdkCall
  native_value_fn : Client → ℚ
  supported_fn : Coordinator → Bool := fun _ => true

/-- Descriptor of a keyed number entity
(`LaMarzoccoKeyNumberEntityDescription`); getter and setter additionally
take the key index.  The defaults of `available_fn` and `supported_fn`
are the ones inherited from `LaMarzoccoEntityDescription` in `entity.py`
(outside this file), modelled from the spec: a descriptor without an
explicit predicate is always available / supported on every model. -/
structure KeyNumberEntityDescription where
  key : String
  translation_key : String
  device_class : Option String := none
  native_unit_of_measurement : Option String := none
  native_step : ℚ
  native_min_value : ℚ
  native_max_value : ℚ
  entity_category : Option String := none
  set_value_fn : Client → ℚ → ℕ → SdkCall
  native_value_fn : Client → ℕ → ℚ
  available_fn : Client → Bool := fun _ => true
  supported_fn : Coordinator → Bool := fun _ => true

/-- The `coffee_temp` entry of `ENTITIES`. -/
def coffee_temp : NumberEntityDescription where
  key := "coffee_temp"
  translation_key := "coffee_temp"
  device_class := some "temperature"
  native_unit_of_measurement := some "°C"
  native_step := PRECISION_TENTHS
  native_min_value := 85
  native_max_value := 104
  set_value_fn := fun coordinator temp => SdkCall.set_coffee_temp temp
  native_value_fn := fun lm => (lm.current_status "coffee_set_temp").toQ

/-- The `steam_temp` entry of `ENTITIES`. -/
def steam_temp : NumberEntityDescription where
  key := "steam_temp"
  translation_key := "steam_temp"
  device_class := some "temperature"
  native_unit_of_measurement := some "°C"
  native_step := PRECISION_WHOLE
  native_min_value := 126
  native_max_value := 131
  set_value_fn := fun coordinator temp => SdkCall.set_steam_temp (pyInt temp)
  native_value_fn := fun lm => (lm.current_status "steam_set_temp").toQ
  supported_fn := fun coordinator =>
    decide (coordinator.lm.model_name ∈ [Model.GS3_AV, Model.GS3_MP])

/-- The `tea_water_duration` entry of `ENTITIES`. -/
def tea_water_duration : NumberEntityDescription where
  key := "tea_water_duration"
  translation_key := "tea_water_duration"
  device_class := some "duration"
  native_unit_of_measurement := some "s"
  native_step := PRECISION_WHOLE
  native_min_value := 0
  native_max_value := 30
  set_value_fn := fun coordinator value => SdkCall.set_dose_hot_water (pyInt value)
  native_value_fn := fun lm => (lm.current_status "dose_hot_water").toQ
  supported_fn := fun coordinator =>
    decide (coordinator.lm.model_name ∈ [Model.GS3_AV, Model.GS3_MP])

/-- The table `ENTITIES`. -/
def ENTITIES : List NumberEntityDescription :=
  [coffee_temp, steam_temp, tea_water_duration]

/-- The derived setter `_set_prebrew_on`: sends the new on-time and the
existing off-time read from `prebrewing_toff_k{key}`, both in truncated
milliseconds. -/
def _set_prebrew_on (lm : Client) (value : ℚ) (key : ℕ) : SdkCall :=
  SdkCall.configure_prebrew
    (some (pyInt (value * 1000)))
    (pyInt ((lm.current_status ("prebrewing_toff_k" ++ toString key)).toQ * 1000))
    key

/-- The derived setter `_set_prebrew_off`: sends the existing on-time
read from `prebrewing_ton_k{key}` and the new off-time, both in
truncated milliseconds. -/
def _set_prebrew_off (lm : Client) (value : ℚ) (key : ℕ) : SdkCall :=
  SdkCall.configure_prebrew
    (some (pyInt ((lm.current_status ("prebrewing_ton_k" ++ toString key)).toQ * 1000)))
    (pyInt (value * 1000))
    key

/-- The derived setter `_set_preinfusion`: sends only the new off-time
in truncated milliseconds, omitting `on_time`. -/
def _set_preinfusion (lm : Client) (value : ℚ) (key : ℕ) : SdkCall :=
  SdkCall.configure_prebrew none (pyInt (value * 1000)) key

/-- The `prebrew_off` entry of `KEY_ENTITIES`. -/
def prebrew_off : KeyNumberEntityDescription where
  key := "prebrew_off"
  translation_key := "prebrew_off"
  device_class := some "duration"
  native_unit_of_measurement := some "s"
  native_step := PRECISION_TENTHS
  native_min_value := 1
  native_max_value := 10
  entity_category := some "config"
  set_value_fn := _set_prebrew_off
  native_value_fn := fun lm key =>
    (lm.current_status ("prebrewing_ton_k" ++ toString key)).toQ
  available_fn := fun lm => (lm.current_status "enable_prebrewing").toBool
  supported_fn := fun coordinator =>
    coordinator.lm.model_name != Model.GS3_MP

/-- The `prebrew_on` entry of `KEY_ENTITIES`. -/
def prebrew_on : KeyNumberEntityDescription where
  key := "prebrew_on"
  translation_key := "prebrew_on"
  device_class := some "duration"
  native_unit_of_measurement := some "s"
  native_step := PRECISION_TENTHS
  native_min_value := 2
  native_max_value := 10
  entity_category := some "config"
  set_value_fn := _set_prebrew_on
  native_value_fn := fun lm key =>
    (lm.current_status ("prebrewing_toff_k" ++ toString key)).toQ
  available_fn := fun lm => (lm.current_status "enable_prebrewing").toBool
  supported_fn := fun coordinator =>
    coordinator.lm.model_name != Model.GS3_MP

/-- The `preinfusion_off` entry of `KEY_ENTITIES`. -/
def preinfusion_off : KeyNumberEntityDescription where
  key := "preinfusion_off"
  translation_key := "preinfusion_off"
  device_class := some "duration"
  native_unit_of_measurement := some "s"
  native_step := PRECISION_TENTHS
  native_min_value := 2
  native_max_value := 29
  entity_category := some "config"
  set_value_fn := _set_preinfusion
  native_value_fn := fun lm key =>
    (lm.current_status ("preinfusion_k" ++ toString key)).toQ
  available_fn := fun lm => (lm.current_status "enable_preinfusion").toBool
  supported_fn := fun coordinator =>
    coordinator.lm.model_name != Model.GS3_MP

/-- The `dose` entry of `KEY_ENTITIES` (no explicit `available_fn`, so
it keeps the inherited default). -/
def dose : KeyNumberEntityDescription where
  key := "dose"
  translation_key := "dose"
  native_unit_of_measurement := some "ticks"
  native_step := PRECISION_WHOLE
  native_min_value := 0
  native_max_value := 999
  entity_category := some "config"
  set_value_fn := fun lm ticks key => SdkCall.set_dose key (pyInt ticks)
  native_value_fn := fun lm key =>
    (lm.current_status ("dose_k" ++ toString key)).toQ
  supported_fn := fun coordinator =>
    coordinator.lm.model_name == Model.GS3_AV

/-- The table `KEY_ENTITIES`. -/
def KEY_ENTITIES : List KeyNumberEntityDescription :=
  [prebrew_off, prebrew_on, preinfusion_off, dose]

/-- Update one field of a status snapshot. -/
def Status.update (st : Status) (field : String) (v : StatusVal) : Status :=
  fun s => if s = field then v else st s

/-- Stub client semantics: each SDK call stores the value it is told
into the status field that call controls, converting the milliseconds of
`configure_prebrew` back to the seconds in which the snapshot reports
times.  `configure_prebrew` with both times stores
`prebrewing_ton_k{key}` and `prebrewing_toff_k{key}`; the form without
`on_time` is the one the preinfusion setter uses and stores the off time
as the machine's preinfusion duration `preinfusion_k{key}` (the SDK
`lmcloud` itself is external; this is the spec's stub client that
stores what it is told). -/
def applyCall (st : Status) : SdkCall → Status
  | .set_coffee_temp t => st.update "coffee_set_temp" (.num t)
  | .set_steam_temp t => st.update "steam_set_temp" (.num t)
  | .set_dose_hot_water v => st.update "dose_hot_water" (.num v)
  | .set_dose key v => st.update ("dose_k" ++ toString key) (.num v)
  | .configure_prebrew (some on_time) off_time key =>
      ((st.update ("prebrewing_ton_k" ++ toString key)
          (.num ((on_time : ℚ) / 1000))).update
        ("prebrewing_toff_k" ++ toString key)
        (.num ((off_time : ℚ) / 1000)))
  | .configure_prebrew none off_time key =>
      st.update ("preinfusion_k" ++ toString key)
        (.num ((off_time : ℚ) / 1000))

/-- Set-then-get against the stub client for a plain descriptor: run
the descriptor's setter on value `v`, apply the resulting SDK call to
the snapshot, then read through the descriptor's getter. -/
def roundTrip (d : NumberEntityDescription) (m : Model) (st : Status)
    (v : ℚ) : ℚ :=
  d.native_value_fn ⟨m, applyCall st (d.set_value_fn ⟨⟨m, st⟩⟩ v)⟩

/-- Set-then-get against the stub client for a keyed descriptor. -/
def keyRoundTrip (d : KeyNumberEntityDescription) (m : Model) (st : Status)
    (v : ℚ) (key : ℕ) : ℚ :=
  d.native_value_fn ⟨m, applyCall st (d.set_value_fn ⟨m, st⟩ v key)⟩ key

/-- Membership of a value in a descriptor's declared range: between the
declared minimum and maximum and on the declared step grid (the host
framework enforces min/max/step before the setter is called). -/
def inRange (minValue maxValue step v : ℚ) : Prop :=
  minValue ≤ v ∧ v ≤ maxValue ∧ ∃ k : ℕ, v = minValue + k * step

/-- An instantiated keyed number entity (`LaMarzoccoKeyNumberEntity`):
the attributes its constructor sets, the bound descriptor and the bound
physical key. -/
structure KeyNumberEntity where
  translation_key : String
  translation_placeholders : Option String
  unique_id : String
  entity_registry_enabled_default : Bool
  pyhsical_key : ℕ
  description : KeyNumberEntityDescription

/-- Constructor of `LaMarzoccoKeyNumberEntity`.  The base class
`LaMarzoccoEntity` (in `entity.py`, outside this file) assigns the
identity string read back as `super()._attr_unique_id`; it is passed in
here as `baseUid`.  Modelled from the spec: the host framework leaves
`entity_registry_enabled_default` true and the translation key equal to
the descriptor's unless the constructor overrides them.  A key of `0`
is normalized to physical key `1` and keeps the base attributes; any
other key gets the `_key`-suffixed translation key and unique id and is
disabled by default. -/
def mkKeyNumberEntity (baseUid : String)
    (description : KeyNumberEntityDescription) (pyhsical_key : ℕ) :
    KeyNumberEntity :=
  if pyhsical_key = 0 then
    { translation_key := description.translation_key
      translation_placeholders := none
      unique_id := baseUid
      entity_registry_enabled_default := true
      pyhsical_key := 1
      description := description }
  else
    { translation_key := description.translation_key ++ "_key"
      translation_placeholders := some (toString pyhsical_key)
      unique_id := baseUid ++ "_key" ++ toString pyhsical_key
      entity_registry_enabled_default := false
      pyhsical_key := pyhsical_key
      description := description }

/-- Python `range(a, b)` as a list. -/
def pythonRange (a b : ℕ) : List ℕ :=
  List.range' a (b - a)

/-- The keyed part of `async_setup_entry` for one descriptor: when the
descriptor is supported, one `LaMarzoccoKeyNumberEntity` per key in
`range(min(num_keys, 1), num_keys + 1)` where `num_keys` is
`KEYS_PER_MODEL[model]`.  The table `KEYS_PER_MODEL` lives in the
external SDK `lmcloud`, so it is a parameter here. -/
def keyEntitiesFor (keysPerModel : Model → ℕ) (baseUid : String)
    (coordinator : Coordinator)
    (description : KeyNumberEntityDescription) : List KeyNumberEntity :=
  if description.supported_fn coordinator then
    let num_keys := keysPerModel coordinator.lm.model_name
    (pythonRange (min num_keys 1) (num_keys + 1)).map
      (mkKeyNumberEntity baseUid description)
  else []

/-- The `native_value` property of `LaMarzoccoNumberEntity`: the
descriptor's getter applied to the coordinator's client. -/
def native_value (description : NumberEntityDescription)
    (coordinator : Coordinator) : ℚ :=
  description.native_value_fn coordinator.lm

/-- The `native_value` property of `LaMarzoccoKeyNumberEntity`: the
descriptor's getter applied to the client and the bound physical key. -/
def KeyNumberEntity.native_value (entity : KeyNumberEntity)
    (lm : Client) : ℚ :=
  entity.description.native_value_fn lm entity.pyhsical_key

/-- Observable steps of one `async_set_native_value` coroutine run: the
awaited SDK call made by the descriptor's setter, and the
`async_write_ha_state` announcement. -/
inductive Ev where
  | sdkCall (call : SdkCall)
  | writeHaState
deriving DecidableEq, Repr

/-- Effect-trace model of `LaMarzoccoNumberEntity.async_set_native_value`:
the coroutine awaits the setter's SDK call to completion (`sdkExec`
gives the outcome of that call: a normal return or a raised exception);
a raised exception propagates unchanged and ends the run, otherwise
`async_write_ha_state` runs after the await.  The result is the ordered
trace of completed steps together with the propagated exception, if
any. -/
def asyncSetNativeValue {Err : Type} (sdkExec : SdkCall → Except Err Bool)
    (description : NumberEntityDescription) (coordinator : Coordinator)
    (value : ℚ) : List Ev × Option Err :=
  match sdkExec (description.set_value_fn coordinator value) with
  | .error e =>
      ([Ev.sdkCall (description.set_value_fn coordinator value)], some e)
  | .ok _ =>
      ([Ev.sdkCall (description.set_value_fn coordinator value),
        Ev.writeHaState], none)

/-- Effect-trace model of
`LaMarzoccoKeyNumberEntity.async_set_native_value`, which passes the
client and the entity's bound physical key to the setter; otherwise as
`asyncSetNativeValue`. -/
def keyAsyncSetNativeValue {Err : Type}
    (sdkExec : SdkCall → Except Err Bool) (entity : KeyNumberEntity)
    (lm : Client) (value : ℚ) : List Ev × Option Err :=
  match sdkExec (entity.description.set_value_fn lm value entity.pyhsical_key) with
  | .error e =>
      ([Ev.sdkCall (entity.description.set_value_fn lm value entity.pyhsical_key)],
        some e)
  | .ok _ =>
      ([Ev.sdkCall (entity.description.set_value_fn lm value entity.pyhsical_key),
        Ev.writeHaState], none)

/-- Whether an SDK call is a `configure_prebrew` that passes the
`on_time` keyword argument. -/
def passesOnTime : SdkCall → Bool
  | .configure_prebrew (some _) _ _ => true
  | _ => false

/-- Concrete snapshot used as test input: key-1 prebrew on-time 4 s and
off-time 5 s, every other field 0. -/
def prebrewStatus : Status := fun s =>
  if s = "prebrewing_ton_k1" then .num 4
  else if s = "prebrewing_toff_k1" then .num 5
  else .num 0

/-- Concrete snapshot used as test input: every field `False`. -/
def allFalseStatus : Status := fun _ => .bool false

/-- Concrete client used as test input. -/
def gs3av : Client := ⟨Model.GS3_AV, prebrewStatus⟩

/-- Concrete SDK execution used as test input: every call returns
normally. -/
def okExec : SdkCall → Except String Bool := fun _ => Except.ok true

/-- Concrete SDK execution used as test input: every call raises. -/
def errExec : SdkCall → Except String Bool := fun _ =>
  Except.error "network down"

/-- Concrete keyed entity used as test input. -/
def doseEntity : KeyNumberEntity := mkKeyNumberEntity "uid" dose 0

/-- Python `int` of a natural number is that number. -/
theorem pyInt_natCast (n : ℕ) : pyInt (n : ℚ) = n := by
  simp [pyInt]

/-- Values on the tenths-of-a-second grid scale to exact whole
milliseconds: `int((k/10) * 1000) = 100 * k`. -/
theorem pyInt_tenths (k : ℕ) : pyInt ((k : ℚ) / 10 * 1000) = 100 * k := by
  have h : (k : ℚ) / 10 * 1000 = ((100 * k : ℕ) : ℚ) := by push_cast; ring
  rw [h, pyInt_natCast]
  push_cast
  ring

/-- Updating a field and reading it back gives the written value. -/
theorem Status.update_same (st : Status) (f : String) (v : StatusVal) :
    Status.update st f v f = v := by
  simp [Status.update]

/-- Updating one field leaves every other field unchanged. -/
theorem Status.update_other (st : Status) (f : String) (v : StatusVal)
    (g : String) (h : g ≠ f) : Status.update st f v g = st g := by
  simp [Status.update, h]

/-- The on-time field name differs from the off-time field name for
every key. -/
theorem ton_ne_toff (key : ℕ) :
    ("prebrewing_ton_k" ++ toString key) ≠
      ("prebrewing_toff_k" ++ toString key) := by
  intro h
  have hlen := congrArg String.length h
  simp only [String.length_append] at hlen
  have h1 : ("prebrewing_ton_k").length = 16 := rfl
  have h2 : ("prebrewing_toff_k").length = 17 := rfl
  omega

/-- C3: `_set_prebrew_on(lm, 3.5, key=1)` calls `configure_prebrew`
with `on_time = 3500`, `off_time` equal to the existing status value
`prebrewing_toff_k1` multiplied by `1000` and truncated to an integer,
and `key = 1`, for every model and status snapshot. -/
theorem set_prebrew_on_three_point_five (m : Model) (st : Status) :
    _set_prebrew_on ⟨m, st⟩ (7 / 2) 1 =
      SdkCall.configure_prebrew (some 3500)
        (pyInt ((st "prebrewing_toff_k1").toQ * 1000)) 1 := by
  have h : ("prebrewing_toff_k" ++ toString 1) = "prebrewing_toff_k1" := rfl
  have h2 : pyInt (7 / 2 * 1000) = 3500 := by norm_num [pyInt]
  simp [_set_prebrew_on, h, h2]

/-- C10: the `steam_temp`, `tea_water_duration` and `dose` setters
truncate the value toward zero before the SDK call, the `coffee_temp`
setter forwards the value unchanged, truncation floors fractional
inputs toward zero (`int(3.7) = 3`), and no setter clamps to the
declared range (shown at `coffee_temp` value `200`, above its maximum
of `104`). -/
theorem setter_truncation_and_no_clamping
    (co : Coordinator) (lm : Client) (v : ℚ) (key : ℕ) :
    steam_temp.set_value_fn co v = SdkCall.set_steam_temp (pyInt v) ∧
    tea_water_duration.set_value_fn co v =
      SdkCall.set_dose_hot_water (pyInt v) ∧
    dose.set_value_fn lm v key = SdkCall.set_dose key (pyInt v) ∧
    coffee_temp.set_value_fn co v = SdkCall.set_coffee_temp v ∧
    pyInt (37 / 10) = 3 ∧
    coffee_temp.set_value_fn co 200 = SdkCall.set_coffee_temp 200 := by
  refine ⟨rfl, rfl, rfl, rfl, ?_, rfl⟩
  norm_num [pyInt]
  decide

/-- C6: each descriptor's `supported_fn` matches its declared model
list: `steam_temp` and `tea_water_duration` are supported exactly on
`GS3_AV` and `GS3_MP`, the three prebrew/preinfusion descriptors
exactly on models other than `GS3_MP`, `dose` exactly on `GS3_AV`, and
`coffee_temp` on every model (its predicate is the inherited default
from `entity.py`, modelled from the spec as always true). -/
theorem supported_fn_matches_declared_models (m : Model) (st : Status) :
    coffee_temp.supported_fn ⟨⟨m, st⟩⟩ = true ∧
    (steam_temp.supported_fn ⟨⟨m, st⟩⟩ = true ↔
      m = Model.GS3_AV ∨ m = Model.GS3_MP) ∧
    (tea_water_duration.supported_fn ⟨⟨m, st⟩⟩ = true ↔
      m = Model.GS3_AV ∨ m = Model.GS3_MP) ∧
    (prebrew_off.supported_fn ⟨⟨m, st⟩⟩ = true ↔ m ≠ Model.GS3_MP) ∧
    (prebrew_on.supported_fn ⟨⟨m, st⟩⟩ = true ↔ m ≠ Model.GS3_MP) ∧
    (preinfusion_off.supported_fn ⟨⟨m, st⟩⟩ = true ↔ m ≠ Model.GS3_MP) ∧
    (dose.supported_fn ⟨⟨m, st⟩⟩ = true ↔ m = Model.GS3_AV) := by
  cases m <;>
    simp [coffee_temp, steam_temp, tea_water_duration, prebrew_off,
      prebrew_on, preinfusion_off, dose]

/-- Witness for the supported-model table at a concrete model and
snapshot. -/
theorem supported_fn_matches_declared_models_witness :
    coffee_temp.supported_fn ⟨⟨Model.LINEA_MINI, allFalseStatus⟩⟩ = true ∧
    (steam_temp.supported_fn ⟨⟨Model.LINEA_MINI, allFalseStatus⟩⟩ = true ↔
      Model.LINEA_MINI = Model.GS3_AV ∨ Model.LINEA_MINI = Model.GS3_MP) ∧
    (tea_water_duration.supported_fn ⟨⟨Model.LINEA_MINI, allFalseStatus⟩⟩ = true ↔
      Model.LINEA_MINI = Model.GS3_AV ∨ Model.LINEA_MINI = Model.GS3_MP) ∧
    (prebrew_off.supported_fn ⟨⟨Model.LINEA_MINI, allFalseStatus⟩⟩ = true ↔
      Model.LINEA_MINI ≠ Model.GS3_MP) ∧
    (prebrew_on.supported_fn ⟨⟨Model.LINEA_MINI, allFalseStatus⟩⟩ = true ↔
      Model.LINEA_MINI ≠ Model.GS3_MP) ∧
    (preinfusion_off.supported_fn ⟨⟨Model.LINEA_MINI, allFalseStatus⟩⟩ = true ↔
      Model.LINEA_MINI ≠ Model.GS3_MP) ∧
    (dose.supported_fn ⟨⟨Model.LINEA_MINI, allFalseStatus⟩⟩ = true ↔
      Model.LINEA_MINI = Model.GS3_AV) :=
  supported_fn_matches_declared_models Model.LINEA_MINI allFalseStatus

/-- C5: the keyed entity constructed for key index `0` (the
single-group default) keeps the base identity, the descriptor's
translation key and the enabled-by-default flag and is bound to
physical key `1`; the entity for any non-zero key `j + 1` gets the
`_key`-suffixed unique id (distinct from the base identity) and
translation key, the key placeholder, is disabled by default, and is
bound to physical key `j + 1`. -/
theorem key_entity_default_and_non_default (baseUid : String)
    (d : KeyNumberEntityDescription) (j : ℕ) :
    (mkKeyNumberEntity baseUid d 0).unique_id = baseUid ∧
    (mkKeyNumberEntity baseUid d 0).translation_key = d.translation_key ∧
    (mkKeyNumberEntity baseUid d 0).entity_registry_enabled_default = true ∧
    (mkKeyNumberEntity baseUid d 0).pyhsical_key = 1 ∧
    (mkKeyNumberEntity baseUid d (j + 1)).unique_id =
      baseUid ++ "_key" ++ toString (j + 1) ∧
    (mkKeyNumberEntity baseUid d (j + 1)).unique_id ≠ baseUid ∧
    (mkKeyNumberEntity baseUid d (j + 1)).translation_key =
      d.translation_key ++ "_key" ∧
    (mkKeyNumberEntity baseUid d (j + 1)).translation_placeholders =
      some (toString (j + 1)) ∧
    (mkKeyNumberEntity baseUid d (j + 1)).entity_registry_enabled_default =
      false ∧
    (mkKeyNumberEntity baseUid d (j + 1)).pyhsical_key = j + 1 := by
  refine ⟨rfl, rfl, rfl, rfl, rfl, ?_, rfl, rfl, rfl, rfl⟩
  intro h
  have hlen := congrArg String.length h
  simp only [mkKeyNumberEntity, if_neg (Nat.succ_ne_zero j),
    String.length_append] at hlen
  have h1 : ("_key").length = 4 := rfl
  omega

/-- Witness for the keyed-entity constructor attributes at a concrete
identity, descriptor and key. -/
theorem key_entity_default_and_non_default_witness :
    (mkKeyNumberEntity "uid" prebrew_on 0).unique_id = "uid" ∧
    (mkKeyNumberEntity "uid" prebrew_on 0).translation_key =
      prebrew_on.translation_key ∧
    (mkKeyNumberEntity "uid" prebrew_on 0).entity_registry_enabled_default =
      true ∧
    (mkKeyNumberEntity "uid" prebrew_on 0).pyhsical_key = 1 ∧
    (mkKeyNumberEntity "uid" prebrew_on (2 + 1)).unique_id =
      "uid" ++ "_key" ++ toString (2 + 1) ∧
    (mkKeyNumberEntity "uid" prebrew_on (2 + 1)).unique_id ≠ "uid" ∧
    (mkKeyNumberEntity "uid" prebrew_on (2 + 1)).translation_key =
      prebrew_on.translation_key ++ "_key" ∧
    (mkKeyNumberEntity "uid" prebrew_on (2 + 1)).translation_placeholders =
      some (toString (2 + 1)) ∧
    (mkKeyNumberEntity "uid" prebrew_on (2 + 1)).entity_registry_enabled_default =
      false ∧
    (mkKeyNumberEntity "uid" prebrew_on (2 + 1)).pyhsical_key = 2 + 1 :=
  key_entity_default_and_non_default "uid" prebrew_on 2

/-- C7 counterexample: the `dose` descriptor's availability is not
gated on any runtime mode flag: on a snapshot where every status field
is `False` it still reports available, while the gated prebrew and
preinfusion descriptors report unavailable there. -/
theorem dose_available_not_gated :
    dose.available_fn ⟨Model.GS3_AV, allFalseStatus⟩ = true ∧
    prebrew_off.available_fn ⟨Model.GS3_AV, allFalseStatus⟩ = false ∧
    prebrew_on.available_fn ⟨Model.GS3_AV, allFalseStatus⟩ = false ∧
    preinfusion_off.available_fn ⟨Model.GS3_AV, allFalseStatus⟩ = false :=
  ⟨rfl, rfl, rfl, rfl⟩

/-- C7 (amended): `prebrew_off` and `prebrew_on` are available exactly
when the `enable_prebrewing` status flag is truthy, `preinfusion_off`
exactly when `enable_preinfusion` is truthy, and `dose` is always
available (its predicate is the inherited default from `entity.py`,
modelled from the spec as always true). -/
theorem available_fn_table (lm : Client) :
    prebrew_off.available_fn lm =
      (lm.current_status "enable_prebrewing").toBool ∧
    prebrew_on.available_fn lm =
      (lm.current_status "enable_prebrewing").toBool ∧
    preinfusion_off.available_fn lm =
      (lm.current_status "enable_preinfusion").toBool ∧
    dose.available_fn lm = true :=
  ⟨rfl, rfl, rfl, rfl⟩

/-- C1: the set-then-get round trip fails on the code for `prebrew_on`
and `prebrew_off`.  At the in-range value `3.5` with key `1` on a
snapshot with on-time `4` and off-time `5`, `prebrew_on`'s setter
writes the on-time but its getter reads the off-time field and returns
`5`, and symmetrically `prebrew_off`'s getter returns the on-time `4`;
neither round trip returns `3.5` (the getters of the two descriptors
are swapped relative to their setters). -/
theorem prebrew_round_trip_fails :
    inRange prebrew_on.native_min_value prebrew_on.native_max_value
      prebrew_on.native_step (7 / 2) ∧
    keyRoundTrip prebrew_on Model.LINEA_MINI prebrewStatus (7 / 2) 1 = 5 ∧
    keyRoundTrip prebrew_on Model.LINEA_MINI prebrewStatus (7 / 2) 1 ≠ 7 / 2 ∧
    inRange prebrew_off.native_min_value prebrew_off.native_max_value
      prebrew_off.native_step (7 / 2) ∧
    keyRoundTrip prebrew_off Model.LINEA_MINI prebrewStatus (7 / 2) 1 = 4 ∧
    keyRoundTrip prebrew_off Model.LINEA_MINI prebrewStatus (7 / 2) 1 ≠ 7 / 2 := by
  have hton : ("prebrewing_ton_k" ++ toString 1) = "prebrewing_ton_k1" := rfl
  have htoff : ("prebrewing_toff_k" ++ toString 1) = "prebrewing_toff_k1" := rfl
  have eton : prebrewStatus "prebrewing_ton_k1" = StatusVal.num 4 := rfl
  have etoff : prebrewStatus "prebrewing_toff_k1" = StatusVal.num 5 := rfl
  have hne1 : "prebrewing_ton_k1" ≠ "prebrewing_toff_k1" := by decide
  have hon : keyRoundTrip prebrew_on Model.LINEA_MINI prebrewStatus (7 / 2) 1 = 5 := by
    simp only [keyRoundTrip, prebrew_on, _set_prebrew_on, applyCall,
      hton, htoff]
    rw [Status.update_same, etoff]
    simp only [StatusVal.toQ]
    norm_num [pyInt]
  have hoff : keyRoundTrip prebrew_off Model.LINEA_MINI prebrewStatus (7 / 2) 1 = 4 := by
    simp only [keyRoundTrip, prebrew_off, _set_prebrew_off, applyCall,
      hton, htoff]
    rw [Status.update_other _ _ _ _ hne1, Status.update_same, eton]
    simp only [StatusVal.toQ]
    norm_num [pyInt]
  refine ⟨⟨by norm_num [prebrew_on], by norm_num [prebrew_on], 15, ?_⟩,
    hon, by rw [hon]; norm_num,
    ⟨by norm_num [prebrew_off], by norm_num [prebrew_off], 25, ?_⟩,
    hoff, by rw [hoff]; norm_num⟩
  · norm_num [prebrew_on, PRECISION_TENTHS]
  · norm_num [prebrew_off, PRECISION_TENTHS]

/-- C2 counterexample: `_set_preinfusion` does not invoke
`configure_prebrew` with both timing values: at value `3.5`, key `1`,
it omits the `on_time` keyword argument entirely (while
`_set_prebrew_on` does pass it). -/
theorem set_preinfusion_omits_on_time :
    _set_preinfusion ⟨Model.LINEA_MINI, prebrewStatus⟩ (7 / 2) 1 =
      SdkCall.configure_prebrew none 3500 1 ∧
    passesOnTime
      (_set_preinfusion ⟨Model.LINEA_MINI, prebrewStatus⟩ (7 / 2) 1) = false ∧
    passesOnTime
      (_set_prebrew_on ⟨Model.LINEA_MINI, prebrewStatus⟩ (7 / 2) 1) = true := by
  have h2 : pyInt (7 / 2 * 1000) = 3500 := by norm_num [pyInt]
  exact ⟨by simp [_set_preinfusion, h2], rfl, rfl⟩

/-- C2 (amended): under the stub client, `_set_prebrew_on` updates the
stored on-time to the new value and preserves the stored off-time it
read from the snapshot, `_set_prebrew_off` does the same with the two
sides swapped (both sending the two times in truncated milliseconds in
a single `configure_prebrew` call), while `_set_preinfusion` reads no
status field (its call is the same on every snapshot) and makes a
single `configure_prebrew` call carrying only the new off-time in
truncated milliseconds, with `on_time` omitted.  The value and stored
times are assumed to sit on the tenths-of-a-second grid of the
descriptors' declared step. -/
theorem prebrew_setters_read_modify_write (m : Model) (st st2 : Status)
    (v : ℚ) (key : ℕ)
    (hv : ∃ k : ℕ, v = (k : ℚ) / 10)
    (hton : ∃ k : ℕ,
      (st ("prebrewing_ton_k" ++ toString key)).toQ = (k : ℚ) / 10)
    (htoff : ∃ k : ℕ,
      (st ("prebrewing_toff_k" ++ toString key)).toQ = (k : ℚ) / 10) :
    ((applyCall st (_set_prebrew_on ⟨m, st⟩ v key))
        ("prebrewing_ton_k" ++ toString key)).toQ = v ∧
    ((applyCall st (_set_prebrew_on ⟨m, st⟩ v key))
        ("prebrewing_toff_k" ++ toString key)).toQ =
      (st ("prebrewing_toff_k" ++ toString key)).toQ ∧
    ((applyCall st (_set_prebrew_off ⟨m, st⟩ v key))
        ("prebrewing_toff_k" ++ toString key)).toQ = v ∧
    ((applyCall st (_set_prebrew_off ⟨m, st⟩ v key))
        ("prebrewing_ton_k" ++ toString key)).toQ =
      (st ("prebrewing_ton_k" ++ toString key)).toQ ∧
    _set_preinfusion ⟨m, st⟩ v key =
      SdkCall.configure_prebrew none (pyInt (v * 1000)) key ∧
    _set_preinfusion ⟨m, st⟩ v key = _set_preinfusion ⟨m, st2⟩ v key := by
  obtain ⟨a, ha⟩ := hv
  obtain ⟨b, hb⟩ := hton
  obtain ⟨c, hc⟩ := htoff
  have hne := ton_ne_toff key
  refine ⟨?_, ?_, ?_, ?_, rfl, rfl⟩
  · simp only [applyCall, _set_prebrew_on]
    rw [Status.update_other _ _ _ _ hne, Status.update_same, ha,
      pyInt_tenths]
    simp only [StatusVal.toQ]
    push_cast
    ring
  · simp only [applyCall, _set_prebrew_on]
    rw [Status.update_same, hc, pyInt_tenths]
    simp only [StatusVal.toQ]
    push_cast
    ring
  · simp only [applyCall, _set_prebrew_off]
    rw [Status.update_same, ha, pyInt_tenths]
    simp only [StatusVal.toQ]
    push_cast
    ring
  · simp only [applyCall, _set_prebrew_off]
    rw [Status.update_other _ _ _ _ hne, Status.update_same, hb,
      pyInt_tenths]
    simp only [StatusVal.toQ]
    push_cast
    ring

/-- Witness for the read-modify-write behaviour of the three derived
setters at value `3.5`, key `1`, on the concrete snapshot with on-time
`4` and off-time `5`. -/
theorem prebrew_setters_read_modify_write_witness :
    ((applyCall prebrewStatus
        (_set_prebrew_on ⟨Model.LINEA_MINI, prebrewStatus⟩ (7 / 2) 1))
        ("prebrewing_ton_k" ++ toString 1)).toQ = 7 / 2 ∧
    ((applyCall prebrewStatus
        (_set_prebrew_on ⟨Model.LINEA_MINI, prebrewStatus⟩ (7 / 2) 1))
        ("prebrewing_toff_k" ++ toString 1)).toQ =
      (prebrewStatus ("prebrewing_toff_k" ++ toString 1)).toQ ∧
    ((applyCall prebrewStatus
        (_set_prebrew_off ⟨Model.LINEA_MINI, prebrewStatus⟩ (7 / 2) 1))
        ("prebrewing_toff_k" ++ toString 1)).toQ = 7 / 2 ∧
    ((applyCall prebrewStatus
        (_set_prebrew_off ⟨Model.LINEA_MINI, prebrewStatus⟩ (7 / 2) 1))
        ("prebrewing_ton_k" ++ toString 1)).toQ =
      (prebrewStatus ("prebrewing_ton_k" ++ toString 1)).toQ ∧
    _set_preinfusion ⟨Model.LINEA_MINI, prebrewStatus⟩ (7 / 2) 1 =
      SdkCall.configure_prebrew none (pyInt (7 / 2 * 1000)) 1 ∧
    _set_preinfusion ⟨Model.LINEA_MINI, prebrewStatus⟩ (7 / 2) 1 =
      _set_preinfusion ⟨Model.LINEA_MINI, allFalseStatus⟩ (7 / 2) 1 :=
  prebrew_setters_read_modify_write Model.LINEA_MINI prebrewStatus
    allFalseStatus (7 / 2) 1
    ⟨35, by norm_num⟩
    ⟨40, by
      have e : prebrewStatus ("prebrewing_ton_k" ++ toString 1) =
          StatusVal.num 4 := rfl
      rw [e]
      simp only [StatusVal.toQ]
      norm_num⟩
    ⟨50, by
      have e : prebrewStatus ("prebrewing_toff_k" ++ toString 1) =
          StatusVal.num 5 := rfl
      rw [e]
      simp only [StatusVal.toQ]
      norm_num⟩

/-- C4 counterexample: with a keys-per-model table mapping every model
to `0` keys, the keyed setup for the supported descriptor `prebrew_on`
on a `LINEA_MINI` creates one entity (from key index `0`), not `0`
entities as the claim requires. -/
theorem keyed_setup_count_zero_keys :
    prebrew_on.supported_fn ⟨⟨Model.LINEA_MINI, allFalseStatus⟩⟩ = true ∧
    (keyEntitiesFor (fun _ => 0) "uid"
      ⟨⟨Model.LINEA_MINI, allFalseStatus⟩⟩ prebrew_on).length = 1 ∧
    (fun _ : Model => (0 : ℕ)) Model.LINEA_MINI = 0 :=
  ⟨rfl, rfl, rfl⟩

/-- C4 (amended): for every keys-per-model table, the keyed setup for a
supported descriptor creates `max(KEYS_PER_MODEL[model], 1)` entities —
equal to `KEYS_PER_MODEL[model]` whenever that count is at least `1`,
and a single entity built from key index `0` when it is `0` — creates
none for an unsupported descriptor, and a key index of `0` is
normalized to physical key `1`. -/
theorem keyed_setup_count_and_key_normalization
    (keysPerModel : Model → ℕ) (baseUid : String) (co : Coordinator)
    (d : KeyNumberEntityDescription) :
    (keyEntitiesFor keysPerModel baseUid co d).length =
      (if d.supported_fn co then
        max (keysPerModel co.lm.model_name) 1 else 0) ∧
    (mkKeyNumberEntity baseUid d 0).pyhsical_key = 1 := by
  refine ⟨?_, rfl⟩
  by_cases h : d.supported_fn co
  · simp only [keyEntitiesFor, h, if_pos, List.length_map, pythonRange,
    List.length_range']
    omega
  · simp [keyEntitiesFor, h]

/-- C8: in every run of `async_set_native_value` (plain and keyed
variants), the trace starts with the awaited SDK call made by the
descriptor's setter, and whenever the state announcement
`async_write_ha_state` occurs it is the final event, strictly after the
completed setter call — the announcement never precedes the setter's
completion. -/
theorem async_set_value_write_after_setter {Err : Type}
    (sdkExec : SdkCall → Except Err Bool)
    (description : NumberEntityDescription) (coordinator : Coordinator)
    (entity : KeyNumberEntity) (lm : Client) (v w : ℚ) :
    ((asyncSetNativeValue sdkExec description coordinator v).1.head? =
        some (Ev.sdkCall (description.set_value_fn coordinator v)) ∧
      (Ev.writeHaState ∈ (asyncSetNativeValue sdkExec description coordinator v).1 →
        (asyncSetNativeValue sdkExec description coordinator v).1 =
          [Ev.sdkCall (description.set_value_fn coordinator v),
            Ev.writeHaState])) ∧
    ((keyAsyncSetNativeValue sdkExec entity lm w).1.head? =
        some (Ev.sdkCall
          (entity.description.set_value_fn lm w entity.pyhsical_key)) ∧
      (Ev.writeHaState ∈ (keyAsyncSetNativeValue sdkExec entity lm w).1 →
        (keyAsyncSetNativeValue sdkExec entity lm w).1 =
          [Ev.sdkCall (entity.description.set_value_fn lm w entity.pyhsical_key),
            Ev.writeHaState])) := by
  constructor
  · cases h : sdkExec (description.set_value_fn coordinator v) <;>
      simp [asyncSetNativeValue, h]
  · cases h : sdkExec (entity.description.set_value_fn lm w entity.pyhsical_key) <;>
      simp [keyAsyncSetNativeValue, h]

/-- Witness for the setter-before-announcement ordering on a concrete
successful run. -/
theorem async_set_value_write_after_setter_witness :
    Ev.writeHaState ∈ (asyncSetNativeValue okExec coffee_temp ⟨gs3av⟩ 90).1 ∧
    (asyncSetNativeValue okExec coffee_temp ⟨gs3av⟩ 90).1 =
      [Ev.sdkCall (coffee_temp.set_value_fn ⟨gs3av⟩ 90),
        Ev.writeHaState] := by
  have hmem : Ev.writeHaState ∈
      (asyncSetNativeValue okExec coffee_temp ⟨gs3av⟩ 90).1 := by
    simp [asyncSetNativeValue, okExec]
  exact ⟨hmem,
    (async_set_value_write_after_setter okExec coffee_temp ⟨gs3av⟩
      doseEntity gs3av 90 1).1.2 hmem⟩

/-- C9: when the SDK setter call raises, both variants of
`async_set_native_value` propagate exactly that exception and never
reach the state announcement: the run's trace is the lone SDK call and
contains no `async_write_ha_state` event. -/
theorem async_set_value_propagates_errors {Err : Type}
    (sdkExec : SdkCall → Except Err Bool)
    (description : NumberEntityDescription) (coordinator : Coordinator)
    (entity : KeyNumberEntity) (lm : Client) (v w : ℚ) (e e2 : Err) :
    (sdkExec (description.set_value_fn coordinator v) = Except.error e →
      asyncSetNativeValue sdkExec description coordinator v =
        ([Ev.sdkCall (description.set_value_fn coordinator v)], some e) ∧
      Ev.writeHaState ∉
        (asyncSetNativeValue sdkExec description coordinator v).1) ∧
    (sdkExec (entity.description.set_value_fn lm w entity.pyhsical_key) =
        Except.error e2 →
      keyAsyncSetNativeValue sdkExec entity lm w =
        ([Ev.sdkCall (entity.description.set_value_fn lm w entity.pyhsical_key)],
          some e2) ∧
      Ev.writeHaState ∉ (keyAsyncSetNativeValue sdkExec entity lm w).1) := by
  constructor
  · intro h
    simp [asyncSetNativeValue, h]
  · intro h
    simp [keyAsyncSetNativeValue, h]

/-- Witness for exception propagation on a concrete failing run. -/
theorem async_set_value_propagates_errors_witness :
    asyncSetNativeValue errExec coffee_temp ⟨gs3av⟩ 90 =
      ([Ev.sdkCall (coffee_temp.set_value_fn ⟨gs3av⟩ 90)],
        some "network down") ∧
    Ev.writeHaState ∉ (asyncSetNativeValue errExec coffee_temp ⟨gs3av⟩ 90).1 :=
  (async_set_value_propagates_errors errExec coffee_temp ⟨gs3av⟩
    doseEntity gs3av 90 1 "network down" "network down").1 rfl

end LaMarzocco
